import Mathlib

/-!
# Verification of the `radar` service-detection scanner

Shallow embedding of the core of the `radar` repository (probe-catalog
parser, match engine, scan engine, output shaper) together with theorems
checking the natural-language specification against the code.

Conventions of the embedding:
* Rust `String`/`&str` values are modelled as `List Char` (the inputs the
  claims range over are ASCII, where Rust byte indices and char indices
  coincide).
* Byte sequences (`Vec<u8>`, `&[u8]`) are modelled as `List Nat` with each
  entry `< 256`.
* A Rust panic (`unwrap`, `expect`, `panic!`, `unreachable!`, out-of-bounds
  indexing) is modelled by the `PRes.panic` constructor (resp. `Option.none`
  where noted); a normal return is `PRes.ret`.
* The pcre2 regex engine is external to the repository; a compiled regex is
  modelled as its match function `List Nat → Bool` on raw response bytes,
  and regex compilation as an explicit `compile` argument.
-/

namespace Radar

/-- Result of running a Rust function that may panic: `panic` models an
`unwrap`/`expect`/indexing panic, `ret` a normal return. -/
inductive PRes (α : Type) where
  | panic : PRes α
  | ret : α → PRes α
deriving Repr, DecidableEq

/-! ## Unescape (src/serviceprobes/parse/unescape.rs)

The source pushes the reversed characters onto a stack and pops from the
end, which visits the characters of the string in order; the embedding
recurses over the character list in that same order. -/

/-- `char::as_ascii` (`Some` exactly on code points below 128) composed with
`to_u8`; `none` models the `.unwrap()` panic on a non-ASCII character. -/
def asciiByte (c : Char) : Option Nat :=
  if c.toNat < 128 then some c.toNat else none

/-- Value of a single hexadecimal digit (`0-9`, `a-f`, `A-F` by code point),
as accepted by `u8::from_str_radix(_, 16)`. -/
def hexVal (c : Char) : Option Nat :=
  if 48 ≤ c.toNat ∧ c.toNat ≤ 57 then some (c.toNat - 48)
  else if 97 ≤ c.toNat ∧ c.toNat ≤ 102 then some (c.toNat - 87)
  else if 65 ≤ c.toNat ∧ c.toNat ≤ 70 then some (c.toNat - 55)
  else none

/-- `u8::from_str_radix(s, 16)` on the two-character string `⟨h1, h2⟩`:
a leading `+` is accepted (a leading `-` is rejected for unsigned types),
otherwise both characters must be hex digits.  The result of two hex digits
is at most `0xff`, so overflow cannot occur.  `none` models the `.unwrap()`
panic on a parse error. -/
def fromStrRadix16 (h1 h2 : Char) : Option Nat :=
  if h1 = '+' then hexVal h2
  else do
    let d1 ← hexVal h1
    let d2 ← hexVal h2
    pure (16 * d1 + d2)

/-- `unescape` from src/serviceprobes/parse/unescape.rs, on the character
list of the input string.  `none` models any of its panics: a non-ASCII
character (`as_ascii().unwrap()`), a lone trailing backslash or a truncated
`\xHH` (`chars.pop().unwrap()`), or non-hex digits after `\x`
(`from_str_radix(..).unwrap()`).  The source lists the arms for
`'\'' | '"' | '\\' | '/'` separately from the default arm, but both compute
the same `c.as_ascii().unwrap().to_u8()`, so they are merged here. -/
def unescapeGo : List Char → Option (List Nat)
  | [] => some []
  | c :: rest =>
    if c ≠ '\\' then do
      let b ← asciiByte c
      let tl ← unescapeGo rest
      pure (b :: tl)
    else
      match rest with
      | [] => none
      | e :: rest2 =>
        match e with
        | '0' => (unescapeGo rest2).map (fun tl => 0 :: tl)
        | 'n' => (unescapeGo rest2).map (fun tl => 10 :: tl)
        | 'r' => (unescapeGo rest2).map (fun tl => 13 :: tl)
        | 't' => (unescapeGo rest2).map (fun tl => 9 :: tl)
        | 'x' =>
          match rest2 with
          | h1 :: h2 :: rest3 =>
            match fromStrRadix16 h1 h2 with
            | none => none
            | some v => (unescapeGo rest3).map (fun tl => v :: tl)
          | _ => none
        | _ =>
          match asciiByte e with
          | none => none
          | some b => (unescapeGo rest2).map (fun tl => b :: tl)

/-- `unescape` on a Lean string. -/
def unescape (s : String) : Option (List Nat) :=
  unescapeGo s.data

/-! ### Specification-side description of unescape (for claim C6)

`unescapeSpecFn` follows the spec's words: `\0→0x00`, `\n→0x0a`, `\r→0x0d`,
`\t→0x09`, `\\ \' \" \/` → their literal byte, `\xHH` → the byte with hex
value `HH`, unknown `\X` → the literal byte of `X`, and every other
character passes through as its byte value.  `wfEsc` delimits the inputs the
spec sentence speaks about: ASCII characters, no lone trailing backslash,
and `\x` always followed by exactly two hex digits. -/

/-- Is `c` one of the hexadecimal digits `0-9a-fA-F`? -/
def isHexDigit (c : Char) : Bool :=
  decide (48 ≤ c.toNat ∧ c.toNat ≤ 57) ||
  decide (97 ≤ c.toNat ∧ c.toNat ≤ 102) ||
  decide (65 ≤ c.toNat ∧ c.toNat ≤ 70)

/-- Total value of a hexadecimal digit (0 on non-digits). -/
def hexDigitVal (c : Char) : Nat :=
  if 48 ≤ c.toNat ∧ c.toNat ≤ 57 then c.toNat - 48
  else if 97 ≤ c.toNat ∧ c.toNat ≤ 102 then c.toNat - 87
  else if 65 ≤ c.toNat ∧ c.toNat ≤ 70 then c.toNat - 55
  else 0

/-- Well-formed escape input: all characters ASCII, no dangling backslash,
`\x` followed by two hex digits. -/
def wfEsc : List Char → Bool
  | [] => true
  | c :: rest =>
    if c = '\\' then
      match rest with
      | [] => false
      | e :: rest2 =>
        if e = 'x' then
          match rest2 with
          | h1 :: h2 :: rest3 => isHexDigit h1 && isHexDigit h2 && wfEsc rest3
          | _ => false
        else decide (e.toNat < 128) && wfEsc rest2
    else decide (c.toNat < 128) && wfEsc rest

/-- The byte the spec assigns to the escape `\e`: the named escapes, and the
literal byte of `e` otherwise (covering `\\ \' \" \/` and unknown `\X`). -/
def escByte (e : Char) : Nat :=
  if e = '0' then 0
  else if e = 'n' then 10
  else if e = 'r' then 13
  else if e = 't' then 9
  else e.toNat

/-- The mapping the spec describes, written independently of the code
(values outside `wfEsc` are irrelevant). -/
def unescapeSpecFn : List Char → List Nat
  | [] => []
  | c :: rest =>
    if c = '\\' then
      match rest with
      | [] => []
      | e :: rest2 =>
        if e = 'x' then
          match rest2 with
          | h1 :: h2 :: rest3 => (16 * hexDigitVal h1 + hexDigitVal h2) :: unescapeSpecFn rest3
          | _ => []
        else escByte e :: unescapeSpecFn rest2
    else c.toNat :: unescapeSpecFn rest

theorem hexVal_of_isHexDigit (c : Char) (h : isHexDigit c = true) :
    hexVal c = some (hexDigitVal c) := by
  simp only [isHexDigit, Bool.or_eq_true, decide_eq_true_eq] at h
  by_cases h1 : 48 ≤ c.toNat ∧ c.toNat ≤ 57
  · simp [hexVal, hexDigitVal, h1]
  · by_cases h2 : 97 ≤ c.toNat ∧ c.toNat ≤ 102
    · simp [hexVal, hexDigitVal, h1, h2]
    · by_cases h3 : 65 ≤ c.toNat ∧ c.toNat ≤ 70
      · simp [hexVal, hexDigitVal, h1, h2, h3]
      · exact absurd h (by tauto)

theorem isHexDigit_ne_plus (c : Char) (h : isHexDigit c = true) : c ≠ '+' := by
  intro he
  subst he
  exact absurd h (by decide)

theorem fromStrRadix16_of_hex (h1 h2 : Char) (d1 : isHexDigit h1 = true)
    (d2 : isHexDigit h2 = true) :
    fromStrRadix16 h1 h2 = some (16 * hexDigitVal h1 + hexDigitVal h2) := by
  unfold fromStrRadix16
  rw [if_neg (isHexDigit_ne_plus h1 d1)]
  rw [hexVal_of_isHexDigit h1 d1, hexVal_of_isHexDigit h2 d2]
  rfl

/-- **C6.** On every well-formed input (ASCII characters, no dangling
backslash, `\x` followed by exactly two hex digits), `unescape` succeeds and
maps each escape sequence exactly as the spec states: `\0→0x00`, `\n→0x0a`,
`\r→0x0d`, `\t→0x09`, `\\ \' \" \/` and unknown `\X` to the literal byte,
`\xHH` to the byte with hex value `HH`, and every non-escape character to
its byte value. -/
theorem unescape_follows_spec_rules (cs : List Char) (hwf : wfEsc cs = true) :
    unescapeGo cs = some (unescapeSpecFn cs) := by
  induction cs using unescapeGo.induct with
  | case1 => rfl
  | case2 c rest hc ih =>
    rw [wfEsc.eq_def] at hwf
    simp only [if_neg hc, Bool.and_eq_true, decide_eq_true_eq] at hwf
    rw [unescapeGo.eq_def, unescapeSpecFn.eq_def]
    simp [hc, asciiByte, hwf.1, ih hwf.2]
  | case3 e he =>
    rw [not_not] at he; subst he
    rw [wfEsc.eq_def] at hwf
    simp at hwf
  | case4 e he rest2 ih =>
    rw [not_not] at he; subst he
    rw [wfEsc.eq_def] at hwf
    simp at hwf
    rw [unescapeGo.eq_def, unescapeSpecFn.eq_def]
    simp [escByte, ih hwf]
  | case5 e he rest2 ih =>
    rw [not_not] at he; subst he
    rw [wfEsc.eq_def] at hwf
    simp at hwf
    rw [unescapeGo.eq_def, unescapeSpecFn.eq_def]
    simp [escByte, ih hwf]
  | case6 e he rest2 ih =>
    rw [not_not] at he; subst he
    rw [wfEsc.eq_def] at hwf
    simp at hwf
    rw [unescapeGo.eq_def, unescapeSpecFn.eq_def]
    simp [escByte, ih hwf]
  | case7 e he rest2 ih =>
    rw [not_not] at he; subst he
    rw [wfEsc.eq_def] at hwf
    simp at hwf
    rw [unescapeGo.eq_def, unescapeSpecFn.eq_def]
    simp [escByte, ih hwf]
  | case8 e he h1 h2 rest3 hfsr =>
    rw [not_not] at he; subst he
    rw [wfEsc.eq_def] at hwf
    simp at hwf
    rw [fromStrRadix16_of_hex h1 h2 hwf.1.1 hwf.1.2] at hfsr
    cases hfsr
  | case9 e he h1 h2 rest3 v hfsr ih =>
    rw [not_not] at he; subst he
    rw [wfEsc.eq_def] at hwf
    simp at hwf
    rw [fromStrRadix16_of_hex h1 h2 hwf.1.1 hwf.1.2] at hfsr
    injection hfsr with hv
    subst hv
    rw [unescapeGo.eq_def, unescapeSpecFn.eq_def]
    simp [fromStrRadix16_of_hex h1 h2 hwf.1.1 hwf.1.2, ih hwf.2]
  | case10 e he rest2 hshape =>
    rw [not_not] at he; subst he
    match rest2, hshape with
    | [], _ =>
      rw [wfEsc.eq_def] at hwf
      simp at hwf
    | [h1], _ =>
      rw [wfEsc.eq_def] at hwf
      simp at hwf
    | h1 :: h2 :: rest3, hshape => exact absurd rfl (hshape h1 h2 rest3)
  | case11 e he e1 rest2 hab hn0 hnn hnr hnt hnx =>
    rw [not_not] at he; subst he
    rw [wfEsc.eq_def] at hwf
    simp at hwf
    rw [if_neg (fun h => hnx h)] at hwf
    simp [asciiByte, hwf.1] at hab
  | case12 e he e1 rest2 v hab hn0 hnn hnr hnt hnx ih =>
    rw [not_not] at he; subst he
    rw [wfEsc.eq_def] at hwf
    simp at hwf
    rw [if_neg (fun h => hnx h)] at hwf
    have hha : asciiByte e1 = some e1.toNat := by simp [asciiByte, hwf.1]
    rw [hha] at hab
    injection hab with hv
    subst hv
    have hx : ¬ (e1 = 'x') := fun h => hnx h
    have h0 : ¬ (e1 = '0') := fun h => hn0 h
    have hn : ¬ (e1 = 'n') := fun h => hnn h
    have hr : ¬ (e1 = 'r') := fun h => hnr h
    have ht : ¬ (e1 = 't') := fun h => hnt h
    rw [unescapeGo.eq_def, unescapeSpecFn.eq_def]
    simp [hha, escByte, hx, h0, hn, hr, ht, ih hwf.2]

/-- Witness for `unescape_follows_spec_rules` at the concrete input
`a\n\x41`. -/
theorem unescape_follows_spec_rules_witness :
    wfEsc "a\\n\\x41".data = true ∧
      unescapeGo "a\\n\\x41".data = some [97, 10, 65] := by
  refine ⟨by decide, ?_⟩
  rw [unescape_follows_spec_rules "a\\n\\x41".data (by decide)]
  decide

/-! ### Non-ASCII input (claim C7) -/

theorem hexVal_none_of_ge (c : Char) (h : 128 ≤ c.toNat) : hexVal c = none := by
  unfold hexVal
  rw [if_neg (by omega), if_neg (by omega), if_neg (by omega)]

theorem fromStrRadix16_none_left (h1 h2 : Char) (h : 128 ≤ h1.toNat) :
    fromStrRadix16 h1 h2 = none := by
  unfold fromStrRadix16
  rw [if_neg (by intro he; subst he; exact absurd h (by decide))]
  rw [hexVal_none_of_ge h1 h]
  rfl

theorem fromStrRadix16_none_right (h1 h2 : Char) (h : 128 ≤ h2.toNat) :
    fromStrRadix16 h1 h2 = none := by
  unfold fromStrRadix16
  by_cases hp : h1 = '+'
  · rw [if_pos hp]
    exact hexVal_none_of_ge h2 h
  · rw [if_neg hp, hexVal_none_of_ge h2 h]
    cases hexVal h1 <;> rfl

/-- **C7 counterexample.** On the one-character non-ASCII input `é`
(code point 233), `unescape` does not return normally with the byte passed
through: it panics (`as_ascii().unwrap()` on a non-ASCII character). -/
theorem unescape_nonascii_counterexample :
    unescapeGo [Char.ofNat 233] = none ∧
      unescapeGo [Char.ofNat 233] ≠ some [233] := by
  constructor
  · decide
  · decide

/-- **C7 (amended).** For every input string containing a non-ASCII
character anywhere, `unescape` panics (modelled as `none`) instead of
passing the byte through: the function is defined only on ASCII input. -/
theorem unescape_nonascii_panics :
    ∀ cs : List Char, (∃ c ∈ cs, 128 ≤ c.toNat) → unescapeGo cs = none := by
  intro cs
  induction cs using unescapeGo.induct with
  | case1 =>
    rintro ⟨d, hd, _⟩
    cases hd
  | case2 c rest hcne ih =>
    rintro ⟨d, hd, h128⟩
    rw [unescapeGo.eq_def]
    dsimp only
    rw [if_pos hcne]
    rcases List.mem_cons.mp hd with rfl | hdr
    · have ha : asciiByte d = none := by
        unfold asciiByte
        rw [if_neg (by omega)]
      simp [ha]
    · have hr : unescapeGo rest = none := ih ⟨d, hdr, h128⟩
      rw [hr]
      cases asciiByte c <;> rfl
  | case3 e he =>
    rw [not_not] at he; subst he
    intro _
    rfl
  | case4 e he rest2 ih =>
    rw [not_not] at he; subst he
    rintro ⟨d, hd, h128⟩
    rcases List.mem_cons.mp hd with rfl | hd2
    · exact absurd h128 (by decide)
    rcases List.mem_cons.mp hd2 with rfl | hd3
    · exact absurd h128 (by decide)
    rw [unescapeGo.eq_def]
    simp [ih ⟨d, hd3, h128⟩]
  | case5 e he rest2 ih =>
    rw [not_not] at he; subst he
    rintro ⟨d, hd, h128⟩
    rcases List.mem_cons.mp hd with rfl | hd2
    · exact absurd h128 (by decide)
    rcases List.mem_cons.mp hd2 with rfl | hd3
    · exact absurd h128 (by decide)
    rw [unescapeGo.eq_def]
    simp [ih ⟨d, hd3, h128⟩]
  | case6 e he rest2 ih =>
    rw [not_not] at he; subst he
    rintro ⟨d, hd, h128⟩
    rcases List.mem_cons.mp hd with rfl | hd2
    · exact absurd h128 (by decide)
    rcases List.mem_cons.mp hd2 with rfl | hd3
    · exact absurd h128 (by decide)
    rw [unescapeGo.eq_def]
    simp [ih ⟨d, hd3, h128⟩]
  | case7 e he rest2 ih =>
    rw [not_not] at he; subst he
    rintro ⟨d, hd, h128⟩
    rcases List.mem_cons.mp hd with rfl | hd2
    · exact absurd h128 (by decide)
    rcases List.mem_cons.mp hd2 with rfl | hd3
    · exact absurd h128 (by decide)
    rw [unescapeGo.eq_def]
    simp [ih ⟨d, hd3, h128⟩]
  | case8 e he h1 h2 rest3 hfsr =>
    rw [not_not] at he; subst he
    intro _
    rw [unescapeGo.eq_def]
    simp [hfsr]
  | case9 e he h1 h2 rest3 v hfsr ih =>
    rw [not_not] at he; subst he
    rintro ⟨d, hd, h128⟩
    rcases List.mem_cons.mp hd with rfl | hd2
    · exact absurd h128 (by decide)
    rcases List.mem_cons.mp hd2 with rfl | hd3
    · exact absurd h128 (by decide)
    rcases List.mem_cons.mp hd3 with rfl | hd4
    · rw [fromStrRadix16_none_left d h2 h128] at hfsr
      cases hfsr
    rcases List.mem_cons.mp hd4 with rfl | hd5
    · rw [fromStrRadix16_none_right h1 d h128] at hfsr
      cases hfsr
    rw [unescapeGo.eq_def]
    simp [hfsr, ih ⟨d, hd5, h128⟩]
  | case10 e he rest2 hshape =>
    rw [not_not] at he; subst he
    intro _
    match rest2, hshape with
    | [], _ => rfl
    | [h1], _ => rfl
    | h1 :: h2 :: rest3, hshape => exact absurd rfl (hshape h1 h2 rest3)
  | case11 e he e1 rest2 hab hn0 hnn hnr hnt hnx =>
    rw [not_not] at he; subst he
    intro _
    have hx : ¬ (e1 = 'x') := fun h => hnx h
    have h0 : ¬ (e1 = '0') := fun h => hn0 h
    have hn : ¬ (e1 = 'n') := fun h => hnn h
    have hr : ¬ (e1 = 'r') := fun h => hnr h
    have ht : ¬ (e1 = 't') := fun h => hnt h
    rw [unescapeGo.eq_def]
    simp [hab, hx, h0, hn, hr, ht]
  | case12 e he e1 rest2 v hab hn0 hnn hnr hnt hnx ih =>
    rw [not_not] at he; subst he
    rintro ⟨d, hd, h128⟩
    have hx : ¬ (e1 = 'x') := fun h => hnx h
    have h0 : ¬ (e1 = '0') := fun h => hn0 h
    have hn : ¬ (e1 = 'n') := fun h => hnn h
    have hr : ¬ (e1 = 'r') := fun h => hnr h
    have ht : ¬ (e1 = 't') := fun h => hnt h
    rcases List.mem_cons.mp hd with rfl | hd2
    · exact absurd h128 (by decide)
    rcases List.mem_cons.mp hd2 with rfl | hd3
    · have : asciiByte d = none := by
        unfold asciiByte
        rw [if_neg (by omega)]
      rw [this] at hab
      cases hab
    rw [unescapeGo.eq_def]
    simp [hab, hx, h0, hn, hr, ht, ih ⟨d, hd3, h128⟩]

/-- Witness for `unescape_nonascii_panics` at the input `aé`. -/
theorem unescape_nonascii_panics_witness :
    unescapeGo ['a', Char.ofNat 233] = none :=
  unescape_nonascii_panics ['a', Char.ofNat 233]
    ⟨Char.ofNat 233, by decide, by decide⟩

/-! ## Data model (src/serviceprobes/mod.rs) -/

/-- `TransportProtocol`. -/
inductive TransportProtocol where
  | TCP : TransportProtocol
  | UDP : TransportProtocol
deriving Repr, DecidableEq

/-- `TransportProtocol::from_str`. -/
def TransportProtocol.from_str (input : List Char) : Option TransportProtocol :=
  if input = "TCP".data then some TransportProtocol.TCP
  else if input = "UDP".data then some TransportProtocol.UDP
  else none

/-- `Probe`.  `data` is the decoded payload as raw bytes (the drafts in the
tree disagree on `String` vs `Vec<u8>` for this field; the byte sequence is
the semantic content). -/
structure Probe where
  transport_protocol : TransportProtocol
  name : List Char
  data : List Nat
  no_payload : Bool
deriving Repr, DecidableEq

/-- `Match`.  The compiled pcre2 regex (an external crate) is modelled by
its match function `re` on raw response bytes; `caseless`/`dotall`
compilation is reflected in which function `re` is. -/
structure Match where
  service : List Char
  pattern : List Char
  re : List Nat → Bool
  pattern_options : List Char
  version_info : List Char

/-- `ProbeDirectives`. -/
structure ProbeDirectives where
  «matches» : Option (List Match)
  soft_matches : Option (List Match)
  ports : Option (List Nat)
  ssl_ports : Option (List Nat)
  total_wait_ms : Option Nat
  tcp_wrapped_ms : Option Nat
  rarity : Option Nat
  fallback : Option (List (List Char))

/-- `ProbeDirectives::new`. -/
def ProbeDirectives.new : ProbeDirectives :=
  ⟨none, none, none, none, none, none, none, none⟩

/-- `ServiceProbe`. -/
structure ServiceProbe where
  probe : Probe
  directives : ProbeDirectives

/-- `ServiceProbes` (the catalog). -/
structure ServiceProbes where
  tcp_probes : List ServiceProbe
  udp_probes : List ServiceProbe

/-- `ServiceProbes::new`. -/
def ServiceProbes.new : ServiceProbes := ⟨[], []⟩

/-! ## Match engine (src/serviceprobes/mod.rs) -/

/-- `get_match`: if the regex of `service_match` matches the response,
return a clone of the `Match` (the commented-out capture-group substitution
is not modelled; the panic on a pcre2 engine error is a failure of the
external engine, which the total model `re` does not exhibit). -/
def get_match (service_match : Match) (response : List Nat) : Option Match :=
  if service_match.re response then some service_match else none

/-- The first-hit loop inside `ServiceProbe::check_match`, for one of the
two match lists. -/
def checkMatchLoop (ms : List Match) (response : List Nat) : Option Match :=
  match ms with
  | [] => none
  | m :: rest =>
    match get_match m response with
    | some r => some r
    | none => checkMatchLoop rest response

/-- `ServiceProbe::check_match`: try the hard matches, then the soft
matches (`unwrap_or(&empty)` on the two optional lists). -/
def ServiceProbe.check_match (sp : ServiceProbe) (response : List Nat) : Option Match :=
  match checkMatchLoop (sp.directives.matches.getD []) response with
  | some r => some r
  | none => checkMatchLoop (sp.directives.soft_matches.getD []) response

theorem checkMatchLoop_eq_find (ms : List Match) (response : List Nat) :
    checkMatchLoop ms response = ms.find? (fun m => m.re response) := by
  induction ms with
  | nil => rfl
  | cons m rest ih =>
    rw [checkMatchLoop, get_match, List.find?]
    by_cases h : m.re response
    · rw [if_pos h, h]
    · rw [if_neg h, Bool.eq_false_iff.mpr h, ih]

/-- **C5.** `check_match` returns the first hard match in list order whose
regex hits the response; if no hard match hits, the first soft match whose
regex hits; if neither, nothing.  In particular a hard match always beats a
soft match. -/
theorem check_match_precedence (sp : ServiceProbe) (response : List Nat) :
    sp.check_match response =
      (((sp.directives.matches.getD []).find? (fun m => m.re response)).or
        ((sp.directives.soft_matches.getD []).find? (fun m => m.re response))) := by
  rw [ServiceProbe.check_match, checkMatchLoop_eq_find, checkMatchLoop_eq_find]
  cases (sp.directives.matches.getD []).find? (fun m => m.re response) <;> rfl

/-! ## Directive parsers (src/serviceprobes/parse/)

Strings are char lists; on the ASCII inputs the claims quantify over, Rust
byte indices (`str::find`, slicing) coincide with character indices. -/

/-- `char::is_whitespace` (the Unicode `White_Space` property), on the
ASCII fragment the claims range over. -/
def isWS (c : Char) : Bool :=
  c = ' ' || c = '\t' || c = '\n' || c = '\r' || c = Char.ofNat 11 || c = Char.ofNat 12

/-- Accumulator loop of `str::split_whitespace`. -/
def splitWSAux : List Char → List Char → List (List Char)
  | [], acc => if acc.isEmpty then [] else [acc.reverse]
  | c :: cs, acc =>
    if isWS c then
      if acc.isEmpty then splitWSAux cs []
      else acc.reverse :: splitWSAux cs []
    else splitWSAux cs (c :: acc)

/-- `str::split_whitespace().collect::<Vec<_>>()`. -/
def split_whitespace (l : List Char) : List (List Char) :=
  splitWSAux l []

/-- `[..].join(" ")`. -/
def joinSpace (parts : List (List Char)) : List Char :=
  List.intercalate [' '] parts

/-- `str::find(char)`: index of the first occurrence. -/
def findChar (delim : Char) : List Char → Option Nat
  | [] => none
  | c :: rest => if c = delim then some 0 else (findChar delim rest).map (· + 1)

/-- `parse_probe_line` (src/serviceprobes/parse/probe_directive.rs).
`PRes.ret none` is the "not a probe" return, `PRes.panic` models the panics:
indexing `parts[3]` when only three whitespace-separated tokens exist,
`unescape(..).unwrap()`, and `parts[0]` on an empty split.  The source calls
the external `unescaper` crate; it is modelled here by the repository's own
`unescape`, with which it agrees on the ASCII payloads the claims cover. -/
def parse_probe_line (line : List Char) : PRes (Option Probe) :=
  match split_whitespace line with
  | p0 :: p1 :: p2 :: rest =>
    if p0 ≠ "Probe".data then PRes.ret none
    else
      match TransportProtocol.from_str p1 with
      | none => PRes.ret none
      | some transport_protocol =>
        match rest with
        | [] => PRes.panic
        | p3 :: _ =>
          match p3[1]? with
          | none => PRes.ret none
          | some delimiter =>
            let probe := joinSpace rest
            match findChar delimiter probe with
            | none => PRes.ret none
            | some i =>
              let remainder := probe.drop (i + 1)
              match findChar delimiter remainder with
              | none => PRes.ret none
              | some probe_end_index =>
                let payload := remainder.take probe_end_index
                match unescapeGo payload with
                | none => PRes.panic
                | some data =>
                  if remainder.length > probe_end_index + 1 then
                    match split_whitespace (remainder.drop (probe_end_index + 1)) with
                    | [] => PRes.panic
                    | t :: _ =>
                      PRes.ret (some ⟨transport_protocol, p2, data, t = "no-payload".data⟩)
                  else PRes.ret (some ⟨transport_protocol, p2, data, false⟩)
  | _ => PRes.ret none

/-- **C10 (divergence witness).** The line `Probe TCP NULL` — a `Probe`
line with only three whitespace-separated tokens and no payload token —
makes `parse_probe_line` panic (`parts[3]` is out of bounds behind the
`parts.len() < 3` guard) instead of returning "not a probe". -/
theorem parse_probe_line_three_tokens_panics :
    parse_probe_line "Probe TCP NULL".data = PRes.panic ∧
      parse_probe_line "Probe TCP NULL".data ≠ PRes.ret none := by
  constructor
  · decide
  · decide

theorem splitWSAux_nows (l : List Char) (h : ∀ c ∈ l, isWS c = false) :
    ∀ acc : List Char,
      splitWSAux l acc = if (acc.reverse ++ l).isEmpty then [] else [acc.reverse ++ l] := by
  induction l with
  | nil =>
    intro acc
    cases acc <;> simp [splitWSAux]
  | cons c cs ih =>
    intro acc
    have hc : isWS c = false := h c (List.mem_cons_self c cs)
    rw [splitWSAux.eq_def]
    dsimp only
    rw [hc, if_neg Bool.false_ne_true]
    rw [ih (fun d hd => h d (List.mem_cons_of_mem c hd)) (c :: acc)]
    simp

theorem splitWSAux_append_nows (t : List Char) (ht : ∀ c ∈ t, isWS c = false) :
    ∀ (rest acc : List Char),
      splitWSAux (t ++ rest) acc = splitWSAux rest (t.reverse ++ acc) := by
  induction t with
  | nil => intro rest acc; simp
  | cons c cs ih =>
    intro rest acc
    have hc : isWS c = false := ht c (List.mem_cons_self c cs)
    rw [List.cons_append, splitWSAux.eq_def]
    dsimp only
    rw [hc, if_neg Bool.false_ne_true]
    rw [ih (fun d hd => ht d (List.mem_cons_of_mem c hd)) rest (c :: acc)]
    simp

theorem splitWS_token_cons (t rest : List Char) (ht : ∀ c ∈ t, isWS c = false)
    (htne : t ≠ []) :
    split_whitespace (t ++ ' ' :: rest) = t :: split_whitespace rest := by
  unfold split_whitespace
  rw [splitWSAux_append_nows t ht]
  rw [splitWSAux.eq_def]
  dsimp only
  rw [show isWS ' ' = true from rfl, if_pos rfl]
  have hne : (t.reverse ++ ([] : List Char)).isEmpty = false := by
    simp [List.isEmpty_iff, htne]
  rw [hne, if_neg Bool.false_ne_true]
  simp

theorem splitWS_final_token (t : List Char) (ht : ∀ c ∈ t, isWS c = false)
    (htne : t ≠ []) :
    split_whitespace t = [t] := by
  unfold split_whitespace
  rw [splitWSAux_nows t ht]
  simp [List.isEmpty_iff, htne]

theorem findChar_append_sentinel (delim : Char) (X : List Char) (h : delim ∉ X) :
    findChar delim (X ++ [delim]) = some X.length := by
  induction X with
  | nil => simp [findChar]
  | cons c cs ih =>
    have hc : ¬ (c = delim) := fun he => h (he ▸ List.mem_cons_self c cs)
    rw [List.cons_append, findChar, if_neg hc,
      ih (fun hm => h (List.mem_cons_of_mem c hm))]
    rfl

theorem split_whitespace_probe_foo_line (X : List Char) (hX : ∀ c ∈ X, isWS c = false) :
    split_whitespace ("Probe TCP Foo q|".data ++ X ++ ['|']) =
      ["Probe".data, "TCP".data, "Foo".data, "q|".data ++ X ++ ['|']] := by
  have hdecomp : "Probe TCP Foo q|".data ++ X ++ ['|'] =
      "Probe".data ++ ' ' :: ("TCP".data ++ ' ' :: ("Foo".data ++ ' ' ::
        ("q|".data ++ X ++ ['|']))) := by
    simp
  rw [hdecomp]
  have htok : ∀ c ∈ "q|".data ++ X ++ ['|'], isWS c = false := by
    intro c hc
    simp only [List.append_assoc, List.mem_append, List.mem_singleton] at hc
    rcases hc with hc | hc | hc
    · fin_cases hc <;> rfl
    · exact hX c hc
    · subst hc; rfl
  rw [splitWS_token_cons "Probe".data _ (by decide) (by decide)]
  rw [splitWS_token_cons "TCP".data _ (by decide) (by decide)]
  rw [splitWS_token_cons "Foo".data _ (by decide) (by decide)]
  rw [splitWS_final_token _ htok (by simp)]

/-- **C8.** Parsing `Probe TCP Foo q|X|`, for any ASCII payload `X` free of
whitespace and of the delimiter `|` on which `unescape` succeeds with bytes
`bs`, yields a probe with `name = Foo`, `transport = TCP`, `data = bs` (the
unescaped bytes between the two delimiter occurrences) and
`no_payload = false`. -/
theorem parse_probe_line_ascii_payload (X : List Char) (bs : List Nat)
    (hX : ∀ c ∈ X, isWS c = false) (hd : '|' ∉ X) (hu : unescapeGo X = some bs) :
    parse_probe_line ("Probe TCP Foo q|".data ++ X ++ ['|']) =
      PRes.ret (some ⟨TransportProtocol.TCP, "Foo".data, bs, false⟩) := by
  unfold parse_probe_line
  rw [split_whitespace_probe_foo_line X hX]
  dsimp only
  rw [if_neg (fun h => h rfl)]
  rw [show TransportProtocol.from_str "TCP".data = some TransportProtocol.TCP from rfl]
  dsimp only [joinSpace]
  have e0 : (['q', '|'] ++ X ++ ['|'])[1]? = some '|' := by
    rw [List.append_assoc, List.getElem?_append]
    simp
  have e1 : List.intercalate [' '] [("q|".data ++ X ++ ['|'])] =
      'q' :: '|' :: (X ++ ['|']) := by
    simp [List.intercalate]
  have e2 : findChar '|' ('q' :: '|' :: (X ++ ['|'])) = some 1 := by
    rw [findChar, if_neg (by decide), findChar, if_pos rfl]
    rfl
  have e3 : List.drop (1 + 1) ('q' :: '|' :: (X ++ ['|'])) = X ++ ['|'] := rfl
  have e4 : findChar '|' (X ++ ['|']) = some X.length := findChar_append_sentinel '|' X hd
  have e5 : List.take X.length (X ++ ['|']) = X := List.take_left X ['|']
  have e6 : ¬ ((X ++ ['|']).length > X.length + 1) := by simp
  simp only [e0, e1, e2, e3, e4, e5, hu, if_neg e6]

/-- Witness for `parse_probe_line_ascii_payload` at the concrete line
`Probe TCP Foo q|X|`. -/
theorem parse_probe_line_ascii_payload_witness :
    parse_probe_line "Probe TCP Foo q|X|".data =
      PRes.ret (some ⟨TransportProtocol.TCP, "Foo".data, [88], false⟩) := by
  have h := parse_probe_line_ascii_payload ['X'] [88] (by decide) (by decide) (by decide)
  have hline : "Probe TCP Foo q|X|".data = "Probe TCP Foo q|".data ++ ['X'] ++ ['|'] := by
    decide
  rw [hline]
  exact h

/-! ## Match-line parser (src/serviceprobes/parse/match_directive.rs)

Regex compilation (`pcre2::bytes::RegexBuilder::new().caseless(..)
.dotall(..).build(..)`) belongs to an external crate; it is passed in as
`compile pattern caseless dotall`, returning `none` on a compile error
(which the source turns into a panic). -/

/-- `line.trim().is_empty()`. -/
def isBlank (line : List Char) : Bool :=
  line.all isWS

/-- `str::trim`. -/
def trim (l : List Char) : List Char :=
  (((l.dropWhile isWS).reverse).dropWhile isWS).reverse

/-- `str::starts_with`. -/
def startsWith (prefixStr : List Char) (line : List Char) : Bool :=
  List.isPrefixOf prefixStr line

/-- `parse_match_line`:  `PRes.ret none` is the "not a match line" return;
`PRes.panic` models the regex-compile panic and the `parts[0]`/`nth.unwrap`
panics. -/
def parse_match_line (compile : List Char → Bool → Bool → Option (List Nat → Bool))
    (line : List Char) : PRes (Option Match) :=
  match split_whitespace line with
  | p0 :: p1 :: p2 :: rest3 =>
    if p0 ≠ "match".data ∧ p0 ≠ "softmatch".data then PRes.ret none
    else
      match p2[1]? with
      | none => PRes.ret none
      | some delimiter =>
        let pattern_version_info := joinSpace (p2 :: rest3)
        match findChar delimiter pattern_version_info with
        | none => PRes.ret none
        | some i =>
          let remainder := pattern_version_info.drop (i + 1)
          match findChar delimiter remainder with
          | none => PRes.ret none
          | some pattern_end_index =>
            let pattern := remainder.take pattern_end_index
            let optsVi : PRes (List Char × List Char) :=
              if remainder.length > pattern_end_index + 1 then
                match remainder[pattern_end_index + 1]? with
                | none => PRes.panic
                | some cnext =>
                  if ¬ (isWS cnext = true) then
                    match split_whitespace (remainder.drop (pattern_end_index + 1)) with
                    | [] => PRes.panic
                    | t :: _ =>
                      PRes.ret (t,
                        trim (remainder.drop (pattern_end_index + t.length + 1)))
                  else
                    PRes.ret ([], trim (remainder.drop (pattern_end_index + 1)))
              else PRes.ret ([], [])
            match optsVi with
            | PRes.panic => PRes.panic
            | PRes.ret (pattern_options, version_info) =>
              match compile pattern (pattern_options.contains 'i')
                  (pattern_options.contains 's') with
              | none => PRes.panic
              | some re =>
                PRes.ret (some ⟨p1, pattern, re, pattern_options, version_info⟩)
  | _ => PRes.ret none

/-! ## Catalog reader (src/serviceprobes/parse/mod.rs)

The Rust reader drives a `Lines` iterator; `read_probe_directives` wraps a
`&mut Lines` in a local `Peekable`.  A line that has been peeked but not
consumed when that `Peekable` is dropped is pulled out of the underlying
iterator and lost; the embedding reflects this by returning, as the
remaining-lines list, the lines *after* any peeked-at break line. -/

/-- `str::parse::<usize>` / `::<u16>`-style digit parsing: optional leading
`+` (a `-` is rejected for unsigned types), then at least one ASCII digit. -/
def parseNatR (l : List Char) : Option Nat :=
  let l' := match l with
    | '+' :: r => r
    | _ => l
  if l' ≠ [] ∧ l'.all (fun c => 48 ≤ c.toNat && c.toNat ≤ 57) then
    some (l'.foldl (fun a c => 10 * a + (c.toNat - 48)) 0)
  else none

/-- `str::parse::<u16>`: digits plus the `u16` range bound. -/
def parseU16 (l : List Char) : Option Nat :=
  match parseNatR l with
  | some n => if n ≤ 65535 then some n else none
  | none => none

/-- One segment loop of `parse_ports`. -/
def parsePortsGo : List (List Char) → Option (List Nat)
  | [] => some []
  | seg :: rest =>
    if seg.contains '-' then
      match seg.splitOn '-' with
      | p0 :: p1 :: _ => do
        let s ← parseU16 p0
        let e ← parseU16 p1
        let tl ← parsePortsGo rest
        pure (List.range' s (e + 1 - s) ++ tl)
      | _ => none
    else do
      let p ← parseU16 seg
      let tl ← parsePortsGo rest
      pure (p :: tl)

/-- `parse_ports`: comma-separated `N` or `M-N` items, expanded in order. -/
def parse_ports (ports : List Char) : Option (List Nat) :=
  parsePortsGo (ports.splitOn ',')

/-- `read_matches`: collect `match`/`softmatch` lines until the next `Probe`
line or EOF.  Returns the two ordered lists and the lines remaining for the
caller; a `Probe` line that stops the loop was peeked and is therefore
*not* part of the remainder (it is lost when the `Peekable` is dropped). -/
def read_matches (compile : List Char → Bool → Bool → Option (List Nat → Bool)) :
    List (List Char) → PRes (List Match × List Match × List (List Char))
  | [] => PRes.ret ([], [], [])
  | line :: rest =>
    if startsWith "Probe".data line then PRes.ret ([], [], rest)
    else if startsWith "#".data line || isBlank line then read_matches compile rest
    else if startsWith "match".data line then
      match parse_match_line compile line with
      | PRes.panic => PRes.panic
      | PRes.ret none => PRes.panic
      | PRes.ret (some m) =>
        match read_matches compile rest with
        | PRes.panic => PRes.panic
        | PRes.ret (ms, sms, rem) => PRes.ret (m :: ms, sms, rem)
    else if startsWith "softmatch".data line then
      match parse_match_line compile line with
      | PRes.panic => PRes.panic
      | PRes.ret none => PRes.panic
      | PRes.ret (some m) =>
        match read_matches compile rest with
        | PRes.panic => PRes.panic
        | PRes.ret (ms, sms, rem) => PRes.ret (ms, m :: sms, rem)
    else read_matches compile rest

/-- `read_probe_directives`: the `ports`/`sslports`/`totalwaitms`/
`tcpwrappedms`/`rarity`/`fallback` phase followed by the match-collection
phase.  The source tests the directive name with a sequence of independent
`if`s against the same token, of which at most one fires; the chain below
is equivalent.  Break lines (`Probe`, or a line with fewer than two tokens)
were peeked and are dropped from the returned remainder. -/
def read_probe_directives (compile : List Char → Bool → Bool → Option (List Nat → Bool))
    (d : ProbeDirectives) :
    List (List Char) → PRes (ProbeDirectives × List (List Char))
  | [] => PRes.ret (d, [])
  | line :: rest =>
    if startsWith "Probe".data line then PRes.ret (d, rest)
    else if startsWith "#".data line || isBlank line then
      read_probe_directives compile d rest
    else if startsWith "match".data line || startsWith "softmatch".data line then
      match read_matches compile (line :: rest) with
      | PRes.panic => PRes.panic
      | PRes.ret (ms, sms, rem) =>
        PRes.ret ({ d with «matches» := some ms, soft_matches := some sms }, rem)
    else
      match split_whitespace line with
      | directive :: arg :: _ =>
        if directive = "fallback".data then
          read_probe_directives compile { d with fallback := some (arg.splitOn ',') } rest
        else if directive = "ports".data then
          match parse_ports arg with
          | none => PRes.panic
          | some ps => read_probe_directives compile { d with ports := some ps } rest
        else if directive = "sslports".data then
          match parse_ports arg with
          | none => PRes.panic
          | some ps => read_probe_directives compile { d with ssl_ports := some ps } rest
        else if directive = "totalwaitms".data then
          match parseNatR arg with
          | none => PRes.panic
          | some n => read_probe_directives compile { d with total_wait_ms := some n } rest
        else if directive = "tcpwrappedms".data then
          match parseNatR arg with
          | none => PRes.panic
          | some n => read_probe_directives compile { d with tcp_wrapped_ms := some n } rest
        else if directive = "rarity".data then
          match parseNatR arg with
          | none => PRes.panic
          | some n => read_probe_directives compile { d with rarity := some n } rest
        else read_probe_directives compile d rest
      | _ => PRes.ret (d, rest)

/-- `read_service_probes_file`, main loop.  The `fuel` argument is an
artifact of the embedding only: every recursive call consumes at least one
line, so `fuel = length + 1` (as supplied by `read_service_probes_file`)
never runs out; the `fuel = 0` case is dead. -/
def readServiceProbesGo (compile : List Char → Bool → Bool → Option (List Nat → Bool)) :
    Nat → List (List Char) → PRes ServiceProbes
  | 0, _ => PRes.panic
  | _ + 1, [] => PRes.ret ServiceProbes.new
  | fuel + 1, line :: rest =>
    if startsWith "#".data line || isBlank line then
      readServiceProbesGo compile fuel rest
    else if startsWith "Probe".data line then
      match parse_probe_line line with
      | PRes.panic => PRes.panic
      | PRes.ret none => PRes.panic
      | PRes.ret (some probe) =>
        match read_probe_directives compile ProbeDirectives.new rest with
        | PRes.panic => PRes.panic
        | PRes.ret (directives, rem) =>
          match readServiceProbesGo compile fuel rem with
          | PRes.panic => PRes.panic
          | PRes.ret sps =>
            match probe.transport_protocol with
            | TransportProtocol.TCP =>
              PRes.ret ⟨⟨probe, directives⟩ :: sps.tcp_probes, sps.udp_probes⟩
            | TransportProtocol.UDP =>
              PRes.ret ⟨sps.tcp_probes, ⟨probe, directives⟩ :: sps.udp_probes⟩
    else readServiceProbesGo compile fuel rest

/-- `read_service_probes_file` on the file's list of lines. -/
def read_service_probes_file (compile : List Char → Bool → Bool → Option (List Nat → Bool))
    (lines : List (List Char)) : PRes ServiceProbes :=
  readServiceProbesGo compile (lines.length + 1) lines

/-- Map over a normal return. -/
def PRes.map {α β : Type} (f : α → β) : PRes α → PRes β
  | PRes.panic => PRes.panic
  | PRes.ret a => PRes.ret (f a)

/-- **C2 (divergence witness).** On a catalog of two consecutive `Probe`
lines, `read_service_probes_file` returns only the first probe: the second
`Probe` line is peeked at by `read_probe_directives`' local `Peekable` and
dropped with it, so probe `B` never reaches the outer loop.  The claim's
order-preserving concatenation would contain both probes. -/
theorem read_service_probes_file_drops_second_probe :
    (read_service_probes_file (fun _ _ _ => none)
        ["Probe TCP A q||".data, "Probe TCP B q||".data]).map
        (fun sps => sps.tcp_probes.map (fun sp => sp.probe)) =
      PRes.ret [⟨TransportProtocol.TCP, "A".data, [], false⟩] ∧
    PRes.ret [(⟨TransportProtocol.TCP, "A".data, [], false⟩ : Probe)] ≠
      PRes.ret [⟨TransportProtocol.TCP, "A".data, [], false⟩,
        ⟨TransportProtocol.TCP, "B".data, [], false⟩] := by
  constructor
  · decide
  · decide

/-! ## Scan engine (src/scan.rs)

The network and the OS are the environment of `run_scan`: the `env`
argument gives, for the `i`-th iteration of the probe loop, the outcome of
the TCP connect (with its 5 s timeout), of the TLS handshake (consulted
only when `tls` is on), and of the write+read Phase (with its 5 s read
timeout).  `tokio`/`native_tls` error values are abstracted to `Nat`
codes. -/

/-- Outcome of `timeout(5s, TcpStream::connect(..))`. -/
inductive ConnectOutcome where
  | ok : ConnectOutcome
  | timeout : ConnectOutcome
  | ioError : Nat → ConnectOutcome

/-- Outcome of `tls_connector.connect(..)`. -/
inductive TlsOutcome where
  | ok : TlsOutcome
  | failure : Nat → TlsOutcome

/-- Outcome of `write_all(probe.data)` + `timeout(5s, read(..))`. -/
inductive ProbeIoOutcome where
  | response : List Nat → ProbeIoOutcome
  | readTimeout : ProbeIoOutcome
  | ioError : Nat → ProbeIoOutcome

/-- Environment of one iteration of the probe loop. -/
structure Attempt where
  connect : ConnectOutcome
  tls : TlsOutcome
  io : ProbeIoOutcome

/-- `RadarError` (src/scan.rs and src/error.rs). -/
inductive RadarError where
  | Io : Nat → RadarError
  | Elapsed : RadarError
  | NoDetection : List Nat → RadarError
  | Tls : Nat → RadarError
deriving Repr, DecidableEq

/-- `Display for RadarError`.  `Io` and `Tls` delegate to the external
error's `Display` (abstracted here); `Elapsed` is tokio's fixed message;
`NoDetection` is the literal in the source. -/
def RadarError.display : RadarError → List Char
  | RadarError.Io _ => "io error".data
  | RadarError.Elapsed => "deadline has elapsed".data
  | RadarError.NoDetection _ => "No Detection".data
  | RadarError.Tls _ => "tls error".data

/-- The standard base64 alphabet (what `base64::encode` uses). -/
def b64Char (n : Nat) : Char :=
  "ABCDEFGHIJKLMNOPQRSTUVWXYZabcdefghijklmnopqrstuvwxyz0123456789+/".data.getD n 'A'

/-- `base64::encode` on raw bytes (RFC 4648 with padding). -/
def encode : List Nat → List Char
  | [] => []
  | [b1] => [b64Char (b1 / 4), b64Char (b1 % 4 * 16), '=', '=']
  | [b1, b2] => [b64Char (b1 / 4), b64Char (b1 % 4 * 16 + b2 / 16), b64Char (b2 % 16 * 4), '=']
  | b1 :: b2 :: b3 :: rest =>
    b64Char (b1 / 4) :: b64Char (b1 % 4 * 16 + b2 / 16) ::
      b64Char (b2 % 16 * 4 + b3 / 64) :: b64Char (b3 % 64) :: encode rest

/-- `DetectionInner`: base64 of the response plus the winning match. -/
structure DetectionInner where
  response : List Char
  service_match : Match

/-- `run_service_probe`: write the payload (if non-empty) and read up to
1600 bytes with the read timeout; `?`-propagated errors become
`Io`/`Elapsed`. -/
def run_service_probe (a : Attempt) : Except RadarError (List Nat) :=
  match a.io with
  | ProbeIoOutcome.response bytes => Except.ok (bytes.take 1600)
  | ProbeIoOutcome.readTimeout => Except.error RadarError.Elapsed
  | ProbeIoOutcome.ioError e => Except.error (RadarError.Io e)

/-- `run_service_probe_and_match`: run the probe, then `check_match` on
`&buf[..bytes_read]`; a miss is `NoDetection(response)`. -/
def run_service_probe_and_match (a : Attempt) (service_probe : ServiceProbe) :
    Except RadarError DetectionInner :=
  match run_service_probe a with
  | Except.error e => Except.error e
  | Except.ok response =>
    match service_probe.check_match response with
    | some service_match => Except.ok ⟨encode response, service_match⟩
    | none => Except.error (RadarError.NoDetection response)

/-- `run_scan`'s probe loop over `tcp_probes` (the `i`-th iteration uses
`env i`).  `none` models the `unreachable!()` panic after the loop.  The
`tls` and plain branches of the source duplicate the same
match/timeout/error handling around `run_service_probe_and_match`. -/
def run_scan (env : Nat → Attempt) (tls : Bool) :
    List ServiceProbe → Nat → Option (Except RadarError DetectionInner)
  | [], _ => none
  | sp :: rest, i =>
    let a := env i
    match a.connect with
    | ConnectOutcome.timeout => some (Except.error RadarError.Elapsed)
    | ConnectOutcome.ioError e => some (Except.error (RadarError.Io e))
    | ConnectOutcome.ok =>
      if tls then
        match a.tls with
        | TlsOutcome.failure e => some (Except.error (RadarError.Tls e))
        | TlsOutcome.ok =>
          match run_service_probe_and_match a sp with
          | Except.ok d => some (Except.ok d)
          | Except.error (RadarError.NoDetection _) => run_scan env tls rest (i + 1)
          | Except.error RadarError.Elapsed =>
            if sp.probe.name ≠ "NULL".data then some (Except.error RadarError.Elapsed)
            else run_scan env tls rest (i + 1)
          | Except.error e => some (Except.error e)
      else
        match run_service_probe_and_match a sp with
        | Except.ok d => some (Except.ok d)
        | Except.error (RadarError.NoDetection _) => run_scan env tls rest (i + 1)
        | Except.error RadarError.Elapsed =>
          if sp.probe.name ≠ "NULL".data then some (Except.error RadarError.Elapsed)
          else run_scan env tls rest (i + 1)
        | Except.error e => some (Except.error e)

/-- **C4.** When the read of a probe's response times out (connect — and,
under TLS, the handshake — succeeded), `run_scan` aborts the sequence with
the `Elapsed` timeout error if and only if the probe's name is not `NULL`;
for the `NULL` probe the timeout is swallowed and the loop moves on to the
next probe in catalog order. -/
theorem run_scan_timeout_null_swallowed (env : Nat → Attempt) (tls : Bool)
    (sp : ServiceProbe) (rest : List ServiceProbe) (i : Nat)
    (hc : (env i).connect = ConnectOutcome.ok)
    (ht : tls = true → (env i).tls = TlsOutcome.ok)
    (hio : (env i).io = ProbeIoOutcome.readTimeout) :
    run_scan env tls (sp :: rest) i =
      if sp.probe.name = "NULL".data then run_scan env tls rest (i + 1)
      else some (Except.error RadarError.Elapsed) := by
  cases tls with
  | false =>
    rw [run_scan.eq_def]
    dsimp only
    rw [hc]
    dsimp only
    rw [if_neg Bool.false_ne_true]
    rw [run_service_probe_and_match, run_service_probe, hio]
    dsimp only
    rw [ite_not]
  | true =>
    rw [run_scan.eq_def]
    dsimp only
    rw [hc]
    dsimp only
    rw [if_pos rfl, ht rfl]
    dsimp only
    rw [run_service_probe_and_match, run_service_probe, hio]
    dsimp only
    rw [ite_not]

/-- Witness for `run_scan_timeout_null_swallowed`: a read timeout on a
non-`NULL` probe surfaces as `Elapsed`, and on a `NULL` probe the loop
falls through to the panic of the empty remainder. -/
theorem run_scan_timeout_null_swallowed_witness :
    run_scan (fun _ => ⟨ConnectOutcome.ok, TlsOutcome.ok, ProbeIoOutcome.readTimeout⟩)
        false [⟨⟨TransportProtocol.TCP, "A".data, [], false⟩, ProbeDirectives.new⟩] 0 =
      some (Except.error RadarError.Elapsed) ∧
    run_scan (fun _ => ⟨ConnectOutcome.ok, TlsOutcome.ok, ProbeIoOutcome.readTimeout⟩)
        false [⟨⟨TransportProtocol.TCP, "NULL".data, [], false⟩, ProbeDirectives.new⟩] 0 =
      none := by
  constructor
  · rw [run_scan_timeout_null_swallowed _ _ _ _ _ rfl (fun h => by cases h) rfl]
    rw [if_neg (by decide)]
  · rw [run_scan_timeout_null_swallowed _ _ _ _ _ rfl (fun h => by cases h) rfl]
    rw [if_pos (by decide)]
    rfl

/-- **C1 (divergence witness).** A target whose single probe completes
with a response matching no hard or soft match does not make `run_scan`
yield `NoDetection(last_response)`: the loop falls through to
`unreachable!()` and panics (`none`). -/
theorem run_scan_all_miss_panics :
    run_scan (fun _ => ⟨ConnectOutcome.ok, TlsOutcome.ok, ProbeIoOutcome.response [104, 105]⟩)
        false
        [⟨⟨TransportProtocol.TCP, "N".data, [], false⟩,
          { ProbeDirectives.new with
              «matches» := some [⟨"svc".data, "p".data, fun _ => false, [], []⟩] }⟩] 0 =
      none ∧
    (none : Option (Except RadarError DetectionInner)) ≠
      some (Except.error (RadarError.NoDetection [104, 105])) := by
  constructor
  · rfl
  · intro h
    cases h

/-- **C3 counterexample.** Probe `A` produces the non-matching bytes
`[104, 105]`, then probe `B`'s connect fails with an I/O error: `run_scan`
yields the propagated `Io` error, not `NoDetection([104, 105])` carrying
the previous probe's response as the claim states. -/
theorem run_scan_connect_failure_counterexample :
    run_scan
        (fun i => if i = 0 then ⟨ConnectOutcome.ok, TlsOutcome.ok, ProbeIoOutcome.response [104, 105]⟩
          else ⟨ConnectOutcome.ioError 7, TlsOutcome.ok, ProbeIoOutcome.response []⟩)
        false
        [⟨⟨TransportProtocol.TCP, "A".data, [], false⟩, ProbeDirectives.new⟩,
         ⟨⟨TransportProtocol.TCP, "B".data, [], false⟩, ProbeDirectives.new⟩] 0 =
      some (Except.error (RadarError.Io 7)) ∧
    (some (Except.error (RadarError.Io 7)) : Option (Except RadarError DetectionInner)) ≠
      some (Except.error (RadarError.NoDetection [104, 105])) := by
  constructor
  · rfl
  · intro h
    rw [Option.some_inj] at h
    cases h

/-- **C3 (amended).** When the TCP connect for a probe fails, `run_scan`
always propagates the connect error — `Io` for an I/O failure, `Elapsed`
for a connect timeout — regardless of whether any previous probe in the
sequence produced a partial response (there is no carried
previous-response state). -/
theorem run_scan_connect_failure_propagates (env : Nat → Attempt) (tls : Bool)
    (sp : ServiceProbe) (rest : List ServiceProbe) (i : Nat) (e : Nat) :
    ((env i).connect = ConnectOutcome.ioError e →
      run_scan env tls (sp :: rest) i = some (Except.error (RadarError.Io e))) ∧
    ((env i).connect = ConnectOutcome.timeout →
      run_scan env tls (sp :: rest) i = some (Except.error RadarError.Elapsed)) := by
  constructor
  · intro h
    rw [run_scan.eq_def]
    dsimp only
    rw [h]
  · intro h
    rw [run_scan.eq_def]
    dsimp only
    rw [h]

/-- Witness for `run_scan_connect_failure_propagates`: the same
environment as the counterexample, with the hypothesis discharged at
iteration 1. -/
theorem run_scan_connect_failure_propagates_witness :
    run_scan
        (fun i => if i = 0 then ⟨ConnectOutcome.ok, TlsOutcome.ok, ProbeIoOutcome.response [104, 105]⟩
          else ⟨ConnectOutcome.ioError 7, TlsOutcome.ok, ProbeIoOutcome.response []⟩)
        false
        [⟨⟨TransportProtocol.TCP, "B".data, [], false⟩, ProbeDirectives.new⟩] 1 =
      some (Except.error (RadarError.Io 7)) :=
  (run_scan_connect_failure_propagates
    (fun i => if i = 0 then ⟨ConnectOutcome.ok, TlsOutcome.ok, ProbeIoOutcome.response [104, 105]⟩
      else ⟨ConnectOutcome.ioError 7, TlsOutcome.ok, ProbeIoOutcome.response []⟩)
    false
    ⟨⟨TransportProtocol.TCP, "B".data, [], false⟩, ProbeDirectives.new⟩ [] 1 7).1 rfl

/-! ## Output shaper (src/scan.rs + src/output.rs)

`From<(Target, Result<Detection, RadarError>)> for RadarOutput` — identical
in the two drafts.  The wall-clock timestamp is an input here. -/

/-- `Target`. -/
structure Target where
  ip : List Char
  domain : Option (List Char)
  port : Nat

/-- `Detection`: plaintext-only, or plaintext plus the result of the TLS
rescan. -/
inductive Detection where
  | DetectionWithoutTls : DetectionInner → Detection
  | DetectionWithTls : DetectionInner → Except RadarError DetectionInner → Detection

/-- `RadarOutput`. -/
structure RadarOutput where
  target : Target
  timestamp : Nat
  tls : Option Bool
  tls_response : Option (List Char)
  tls_service_match : Option Match
  response : Option (List Char)
  service_match : Option Match
  error : Option (List Char)
  tls_error : Option (List Char)

/-- `RadarOutput::new`. -/
def RadarOutput.new (target : Target) (timestamp : Nat) : RadarOutput :=
  ⟨target, timestamp, none, none, none, none, none, none, none⟩

/-- `update_detection_with_tls`: outer detection plus successful TLS-wrapped
detection. -/
def RadarOutput.update_detection_with_tls (o : RadarOutput)
    (detection tls_wrapped_detection : DetectionInner) : RadarOutput :=
  { o with
    tls := some true
    response := some detection.response
    service_match := some detection.service_match
    tls_response := some tls_wrapped_detection.response
    tls_service_match := some tls_wrapped_detection.service_match }

/-- `update_detection_with_tls_error`: outer detection plus an error from
the TLS rescan. -/
def RadarOutput.update_detection_with_tls_error (o : RadarOutput)
    (detection : DetectionInner) (e : RadarError) : RadarOutput :=
  let o := { o with
    tls := some true
    response := some detection.response
    service_match := some detection.service_match }
  let o := match e with
    | RadarError.NoDetection r => { o with tls_response := some (encode r) }
    | _ => o
  { o with tls_error := some e.display }

/-- `update_detection_without_tls`. -/
def RadarOutput.update_detection_without_tls (o : RadarOutput)
    (d : DetectionInner) : RadarOutput :=
  { o with
    tls := some false
    response := some d.response
    service_match := some d.service_match }

/-- `update_error`. -/
def RadarOutput.update_error (o : RadarOutput) (e : RadarError) : RadarOutput :=
  let o := { o with tls := some false }
  let o := match e with
    | RadarError.NoDetection r => { o with response := some (encode r) }
    | _ => o
  { o with error := some e.display }

/-- The `From<(Target, Result<Detection, RadarError>)>` implementation,
with the wall-clock timestamp passed in. -/
def radarOutputFrom (target : Target) (timestamp : Nat)
    (r : Except RadarError Detection) : RadarOutput :=
  let output := RadarOutput.new target timestamp
  match r with
  | Except.ok (Detection.DetectionWithTls detection w) =>
    match w with
    | Except.ok tls_wrapped_detection =>
      output.update_detection_with_tls detection tls_wrapped_detection
    | Except.error e => output.update_detection_with_tls_error detection e
  | Except.ok (Detection.DetectionWithoutTls d) =>
    output.update_detection_without_tls d
  | Except.error e => output.update_error e

/-- "The connection succeeded": the result is a detection or a
`NoDetection` error. -/
def connectSucceeded : Except RadarError Detection → Bool
  | Except.ok _ => true
  | Except.error (RadarError.NoDetection _) => true
  | Except.error _ => false

/-- **C9.** Every shaped `RadarOutput` sets at most one of `error` and
`service_match`; exactly one of them is set whenever the connection
succeeded (the result is a detection or `NoDetection`); and on a `WithTls`
detection the outer `service_match` is always populated. -/
theorem radar_output_invariant (target : Target) (timestamp : Nat)
    (r : Except RadarError Detection) :
    (¬ ((radarOutputFrom target timestamp r).error.isSome = true ∧
        (radarOutputFrom target timestamp r).service_match.isSome = true)) ∧
    (connectSucceeded r = true →
      ((radarOutputFrom target timestamp r).error.isSome = true ∨
        (radarOutputFrom target timestamp r).service_match.isSome = true)) ∧
    (∀ d w, r = Except.ok (Detection.DetectionWithTls d w) →
      (radarOutputFrom target timestamp r).service_match.isSome = true) := by
  cases r with
  | ok det =>
    cases det with
    | DetectionWithoutTls d =>
      simp [radarOutputFrom, RadarOutput.new, RadarOutput.update_detection_without_tls]
    | DetectionWithTls d w =>
      cases w with
      | ok t =>
        simp [radarOutputFrom, RadarOutput.new, RadarOutput.update_detection_with_tls]
      | error e =>
        cases e <;>
          simp [radarOutputFrom, RadarOutput.new,
            RadarOutput.update_detection_with_tls_error]
  | error e =>
    cases e <;>
      simp [radarOutputFrom, RadarOutput.new, RadarOutput.update_error,
        connectSucceeded]

/-- Witness for `radar_output_invariant` at a `NoDetection` result. -/
theorem radar_output_invariant_witness :
    connectSucceeded (Except.error (RadarError.NoDetection [1, 2])) = true ∧
      ((radarOutputFrom ⟨"ip".data, none, 80⟩ 0
          (Except.error (RadarError.NoDetection [1, 2]))).error.isSome = true ∨
        (radarOutputFrom ⟨"ip".data, none, 80⟩ 0
          (Except.error (RadarError.NoDetection [1, 2]))).service_match.isSome = true) :=
  ⟨rfl,
    (radar_output_invariant ⟨"ip".data, none, 80⟩ 0
      (Except.error (RadarError.NoDetection [1, 2]))).2.1 rfl⟩

end Radar
